import Mathlib

/-!
Verification of the signup write path of the nextJS-first-app repository.

The embedding models, from the source:
- the User table with its unique index on `username` (README schema:
  `username String @unique`), as a list of rows plus an auto-increment
  counter (`Store`);
- Prisma `client.user.create` as `dbCreate`, which rejects with a
  unique-constraint violation exactly when a row with the requested
  username already exists;
- the server action `signup` from `src/app/serverActions/user.ts`;
- the HTTP handler `POST` from the api route in `src/components/Button.tsx`;
- the shipped signup `Button` click handler, `getUserDetails` and the
  `Home` page from `src/components/Button.tsx`;
- the singleton Prisma client accessor (modelled from the spec, the file
  `db/index.ts` being quoted only in the README).

Promise rejection is modelled with `Except`: a function that would reject
returns `Except.error`, and a rejection leaves the store unchanged
(Prisma's failed `create` writes nothing). Console logging is modelled by
returning the list of logged ids.
-/

namespace NextApp

/-- One row of the `User` table (`id`, `username`, `password`; the
timestamp columns of one schema variant are server metadata never read
by the code and are omitted). -/
structure UserRow where
  id : Nat
  username : String
  password : String
deriving Repr, DecidableEq

/-- The User Record Store: the rows of the `User` table in insertion
order, together with the next auto-increment id. -/
structure Store where
  rows : List UserRow
  nextId : Nat
deriving Repr, DecidableEq

/-- The store of a fresh database: no rows, auto-increment starts at 1. -/
def Store.empty : Store := ⟨[], 1⟩

/-- The database errors an insert can produce in this model: the
unique-index violation on `username` (carrying the offending username). -/
inductive DbError where
  | uniqueViolation : String → DbError
deriving Repr, DecidableEq

/-- Does some row with this username exist in the store? -/
def hasUsername (st : Store) (u : String) : Bool :=
  st.rows.any (fun r => r.username == u)

/-- Prisma's `client.user.create({ data: { username, password } })`
against the `User` table: the unique index on `username` makes the insert
reject when a row with that username exists; otherwise it inserts one row
with the next auto-increment id and returns the created row. -/
def dbCreate (st : Store) (u p : String) : Except DbError (UserRow × Store) :=
  if hasUsername st u then
    Except.error (DbError.uniqueViolation u)
  else
    let row : UserRow := ⟨st.nextId, u, p⟩
    Except.ok (row, ⟨st.rows ++ [row], st.nextId + 1⟩)

/-- JavaScript truthiness of the resolved `user` object in
`if (user) { return true; }`: a resolved Prisma `create` yields an
object, and every object is truthy. -/
def objTruthy (_ : UserRow) : Bool := true

/-- `signup` from `src/app/serverActions/user.ts`: awaits
`client.user.create` (a rejected insert rejects the whole call, there is
no try/catch), logs `user.id`, then returns `true` if the user object is
truthy and `false` otherwise. The result carries the returned boolean,
the store after the call and the ids logged to the console. -/
def signup (st : Store) (username password : String) :
    Except DbError (Bool × Store × List Nat) :=
  match dbCreate st username password with
  | Except.error e => Except.error e
  | Except.ok (user, st2) =>
    if objTruthy user then Except.ok (true, st2, [user.id])
    else Except.ok (false, st2, [user.id])

/-- The JSON request body of the signup endpoint: an object with string
fields `username` and `password`. -/
structure JsonBody where
  username : String
  password : String
deriving Repr, DecidableEq

/-- An HTTP response: status code and the `message` field of the JSON
body. -/
structure HttpResponse where
  status : Nat
  message : String
deriving Repr, DecidableEq

/-- The `POST` handler of the signup api route (in
`src/components/Button.tsx`): reads the JSON body, runs the same insert
inline (uncaught on failure), logs `user.id`, and returns
`NextResponse.json({ message: "Signed up" })`, which carries the default
success status 200. -/
def POST (st : Store) (body : JsonBody) :
    Except DbError (HttpResponse × Store × List Nat) :=
  match dbCreate st body.username body.password with
  | Except.error e => Except.error e
  | Except.ok (user, st2) => Except.ok (⟨200, "Signed up"⟩, st2, [user.id])

/-- Store states reachable from the fresh database by completed signup
attempts, through the server action or the HTTP endpoint. A failed
attempt rejects without writing, so it leaves the store unchanged and
needs no constructor. -/
inductive Reachable : Store → Prop where
  | init : Reachable Store.empty
  | stepSignup (st st2 : Store) (u p : String) (b : Bool) (lg : List Nat)
      (h : Reachable st) (hs : signup st u p = Except.ok (b, st2, lg)) :
      Reachable st2
  | stepPost (st st2 : Store) (body : JsonBody) (resp : HttpResponse)
      (lg : List Nat) (h : Reachable st)
      (hs : POST st body = Except.ok (resp, st2, lg)) :
      Reachable st2

/-- `client.user.findFirst` filtered to a username: the first row of the
table whose `username` matches. -/
def findFirstByUsername (st : Store) (u : String) : Option UserRow :=
  st.rows.find? (fun r => r.username == u)

/-! Helper lemmas shared by the claim theorems. -/

theorem dbCreate_ok_iff {st st2 : Store} {u p : String} {row : UserRow} :
    dbCreate st u p = Except.ok (row, st2) ↔
      hasUsername st u = false ∧ row = UserRow.mk st.nextId u p ∧
      st2 = Store.mk (st.rows ++ [UserRow.mk st.nextId u p]) (st.nextId + 1) := by
  unfold dbCreate
  cases h : hasUsername st u with
  | true => simp
  | false =>
    simp only [Bool.false_eq_true, if_false, Except.ok.injEq, Prod.mk.injEq, true_and]
    constructor
    · rintro ⟨h1, h2⟩; exact ⟨h1.symm, h2.symm⟩
    · rintro ⟨h1, h2⟩; exact ⟨h1.symm, h2.symm⟩

theorem dbCreate_error_iff {st : Store} {u p : String} {e : DbError} :
    dbCreate st u p = Except.error e ↔
      hasUsername st u = true ∧ e = DbError.uniqueViolation u := by
  unfold dbCreate
  cases h : hasUsername st u with
  | true =>
    simp only [if_true, Except.error.injEq, true_and]
    exact ⟨fun h => h.symm, fun h => h.symm⟩
  | false => simp

theorem signup_ok_elim {st st2 : Store} {u p : String} {b : Bool} {lg : List Nat}
    (hs : signup st u p = Except.ok (b, st2, lg)) :
    b = true ∧ ∃ row : UserRow,
      dbCreate st u p = Except.ok (row, st2) ∧ lg = [row.id] := by
  unfold signup at hs
  cases hc : dbCreate st u p with
  | error e => rw [hc] at hs; cases hs
  | ok pr =>
    obtain ⟨user, stx⟩ := pr
    rw [hc] at hs
    simp only [objTruthy, if_true, Except.ok.injEq, Prod.mk.injEq] at hs
    obtain ⟨hb, hst, hlg⟩ := hs
    exact ⟨hb.symm, user, by rw [hst], hlg.symm⟩

theorem signup_error_iff {st : Store} {u p : String} {e : DbError} :
    signup st u p = Except.error e ↔ dbCreate st u p = Except.error e := by
  unfold signup
  cases hc : dbCreate st u p with
  | error e2 => simp
  | ok pr => obtain ⟨user, stx⟩ := pr; simp [objTruthy]

theorem POST_error_iff {st : Store} {body : JsonBody} {e : DbError} :
    POST st body = Except.error e ↔
      dbCreate st body.username body.password = Except.error e := by
  unfold POST
  cases hc : dbCreate st body.username body.password with
  | error e2 => simp
  | ok pr => obtain ⟨user, stx⟩ := pr; simp

theorem find?_append_eq {l1 l2 : List UserRow} {pred : UserRow → Bool}
    (h : ∀ r ∈ l1, pred r = false) :
    (l1 ++ l2).find? pred = l2.find? pred := by
  induction l1 with
  | nil => rfl
  | cons a t ih =>
    have ha : pred a = false := h a (List.mem_cons_self a t)
    simp only [List.cons_append, List.find?, ha]
    exact ih (fun r hr => h r (List.mem_cons_of_mem a hr))

theorem hasUsername_false_elim {st : Store} {u : String}
    (h : hasUsername st u = false) :
    ∀ r ∈ st.rows, (r.username == u) = false := by
  intro r hr
  have := List.any_eq_false.mp h r hr
  exact Bool.eq_false_iff.mpr this

theorem hasUsername_true_of_mem {st : Store} {u : String} {r : UserRow}
    (hr : r ∈ st.rows) (hu : r.username = u) : hasUsername st u = true := by
  refine List.any_eq_true.mpr ⟨r, hr, ?_⟩
  exact beq_iff_eq.mpr hu

/-! Claim theorems. -/

/-- C9: the `signup` function never returns `false`: whenever it resolves
with a boolean (rather than rejecting), that boolean is `true`, because a
resolved insert yields a truthy user object and the `return false` branch
is unreachable. -/
theorem signup_never_returns_false (st st2 : Store) (u p : String)
    (b : Bool) (lg : List Nat)
    (hs : signup st u p = Except.ok (b, st2, lg)) : b = true :=
  (signup_ok_elim hs).1

/-- Witness for C9 at the concrete input: signup on the fresh store with
("alice", "pw") resolves, and the resolved boolean is true. -/
theorem signup_never_returns_false_witness :
    signup Store.empty "alice" "pw" =
      Except.ok (true, Store.mk [UserRow.mk 1 "alice" "pw"] 2, [1]) ∧
    true = true :=
  ⟨by rfl,
   signup_never_returns_false Store.empty (Store.mk [UserRow.mk 1 "alice" "pw"] 2)
     "alice" "pw" true [1] (by rfl)⟩

/-- C5: in the shipped (boolean) variant of the Signup Operation, whenever
the insert succeeds, `signup` returns the boolean `true` (together with
the store the insert produced and a log of the new id). -/
theorem signup_returns_true_on_success (st st2 : Store) (u p : String)
    (row : UserRow) (hc : dbCreate st u p = Except.ok (row, st2)) :
    signup st u p = Except.ok (true, st2, [row.id]) := by
  unfold signup
  rw [hc]
  rfl

/-- Witness for C5 at the concrete input ("alice", "pw") on the fresh
store: the insert succeeds and signup returns true. -/
theorem signup_returns_true_on_success_witness :
    signup Store.empty "alice" "pw" =
      Except.ok (true, Store.mk [UserRow.mk 1 "alice" "pw"] 2, [1]) :=
  signup_returns_true_on_success Store.empty
    (Store.mk [UserRow.mk 1 "alice" "pw"] 2) "alice" "pw"
    (UserRow.mk 1 "alice" "pw") (by rfl)

/-- C8: a successful call to the Signup Operation writes exactly one new
row (carrying the submitted username and password and the next
auto-increment id) at the end of the store, leaves every pre-existing row
unchanged, and its only other effect is the console log of the new row's
id. -/
theorem signup_frame (st st2 : Store) (u p : String) (b : Bool)
    (lg : List Nat) (hs : signup st u p = Except.ok (b, st2, lg)) :
    ∃ row : UserRow,
      st2.rows = st.rows ++ [row] ∧ row.username = u ∧ row.password = p ∧
      row.id = st.nextId ∧ lg = [row.id] ∧ st2.nextId = st.nextId + 1 := by
  obtain ⟨hb, row, hc, hlg⟩ := signup_ok_elim hs
  obtain ⟨hu, hrow, hst⟩ := dbCreate_ok_iff.mp hc
  subst hrow
  subst hst
  exact ⟨UserRow.mk st.nextId u p, rfl, rfl, rfl, rfl, hlg, rfl⟩

/-- Witness for C8 at the concrete input: signup of ("alice", "pw") on a
store already holding bob's row appends exactly one row and logs its
id. -/
theorem signup_frame_witness :
    ∃ row : UserRow,
      (Store.mk [UserRow.mk 1 "bob" "pw0", UserRow.mk 2 "alice" "pw"] 3).rows =
        (Store.mk [UserRow.mk 1 "bob" "pw0"] 2).rows ++ [row] ∧
      row.username = "alice" ∧ row.password = "pw" ∧
      row.id = (Store.mk [UserRow.mk 1 "bob" "pw0"] 2).nextId ∧
      [2] = [row.id] ∧
      (Store.mk [UserRow.mk 1 "bob" "pw0", UserRow.mk 2 "alice" "pw"] 3).nextId =
        (Store.mk [UserRow.mk 1 "bob" "pw0"] 2).nextId + 1 :=
  signup_frame (Store.mk [UserRow.mk 1 "bob" "pw0"] 2)
    (Store.mk [UserRow.mk 1 "bob" "pw0", UserRow.mk 2 "alice" "pw"] 3)
    "alice" "pw" true [2] (by rfl)

/-- C2: password round-trip — after a successful signup with (u, p), the
findFirst lookup for username u returns a row whose password equals the
submitted p character for character (and whose username is u): the write
path applies no hashing or transformation. -/
theorem password_roundtrip (st st2 : Store) (u p : String) (b : Bool)
    (lg : List Nat) (hs : signup st u p = Except.ok (b, st2, lg)) :
    ∃ r : UserRow, findFirstByUsername st2 u = some r ∧
      r.password = p ∧ r.username = u := by
  obtain ⟨hb, row, hc, hlg⟩ := signup_ok_elim hs
  obtain ⟨hu, hrow, hst⟩ := dbCreate_ok_iff.mp hc
  subst hrow
  subst hst
  refine ⟨UserRow.mk st.nextId u p, ?_, rfl, rfl⟩
  unfold findFirstByUsername
  rw [show (Store.mk (st.rows ++ [UserRow.mk st.nextId u p]) (st.nextId + 1)).rows =
      st.rows ++ [UserRow.mk st.nextId u p] from rfl]
  rw [find?_append_eq (hasUsername_false_elim hu)]
  simp [List.find?]

/-- Witness for C2 at the concrete input of the spec's example: after
signup of ("alice", "secret123") on the fresh store, the lookup for
"alice" returns a row whose password is exactly "secret123". -/
theorem password_roundtrip_witness :
    ∃ r : UserRow,
      findFirstByUsername (Store.mk [UserRow.mk 1 "alice" "secret123"] 2) "alice" =
        some r ∧ r.password = "secret123" ∧ r.username = "alice" :=
  password_roundtrip Store.empty (Store.mk [UserRow.mk 1 "alice" "secret123"] 2)
    "alice" "secret123" true [1] (by rfl)

/-- C3: the HTTP signup contract — whenever `POST` completes successfully
on a JSON body with string username and password, it returns the JSON
body with message "Signed up" and the success status 200, and a row with
that username (and that password) exists in the store afterwards. -/
theorem post_contract (st st2 : Store) (body : JsonBody)
    (resp : HttpResponse) (lg : List Nat)
    (hp : POST st body = Except.ok (resp, st2, lg)) :
    resp.message = "Signed up" ∧ resp.status = 200 ∧
    ∃ r : UserRow, r ∈ st2.rows ∧ r.username = body.username ∧
      r.password = body.password := by
  unfold POST at hp
  cases hc : dbCreate st body.username body.password with
  | error e => rw [hc] at hp; cases hp
  | ok pr =>
    obtain ⟨user, stx⟩ := pr
    rw [hc] at hp
    simp only [Except.ok.injEq, Prod.mk.injEq] at hp
    obtain ⟨hresp, hst, hlg⟩ := hp
    obtain ⟨hu, hrow, hstx⟩ := dbCreate_ok_iff.mp hc
    subst hrow
    subst hstx
    refine ⟨by rw [← hresp], by rw [← hresp], UserRow.mk st.nextId body.username body.password, ?_, rfl, rfl⟩
    rw [← hst]
    exact List.mem_append_right _ (List.mem_singleton.mpr rfl)

/-- Witness for C3 at the spec's concrete input: POST of
{"username": "bob", "password": "pw"} on the fresh store returns
status 200 with message "Signed up", and bob's row exists afterwards. -/
theorem post_contract_witness :
    (HttpResponse.mk 200 "Signed up").message = "Signed up" ∧
    (HttpResponse.mk 200 "Signed up").status = 200 ∧
    ∃ r : UserRow, r ∈ (Store.mk [UserRow.mk 1 "bob" "pw"] 2).rows ∧
      r.username = (JsonBody.mk "bob" "pw").username ∧
      r.password = (JsonBody.mk "bob" "pw").password :=
  post_contract Store.empty (Store.mk [UserRow.mk 1 "bob" "pw"] 2)
    (JsonBody.mk "bob" "pw") (HttpResponse.mk 200 "Signed up") [1] (by rfl)

/-- C4: unhandled failure propagation — `signup` rejects exactly when the
insert rejects and with the same error (no try/catch in the shipped
variant); `POST` likewise rejects exactly when its inline insert rejects
(no error response path); and in particular a duplicate username makes
`signup` reject with the unique-constraint violation. -/
theorem unhandled_failure_propagation (st : Store) (u p : String)
    (body : JsonBody) (e : DbError) :
    (signup st u p = Except.error e ↔ dbCreate st u p = Except.error e) ∧
    (POST st body = Except.error e ↔
      dbCreate st body.username body.password = Except.error e) ∧
    (hasUsername st u = true →
      signup st u p = Except.error (DbError.uniqueViolation u)) := by
  refine ⟨signup_error_iff, POST_error_iff, fun hdup => ?_⟩
  exact signup_error_iff.mpr (dbCreate_error_iff.mpr ⟨hdup, rfl⟩)

/-- Witness for C4 at the concrete input: on a store holding alice's row,
a second signup as "alice" rejects with the unique-constraint
violation. -/
theorem unhandled_failure_propagation_witness :
    signup (Store.mk [UserRow.mk 1 "alice" "pw"] 2) "alice" "other" =
      Except.error (DbError.uniqueViolation "alice") :=
  (unhandled_failure_propagation (Store.mk [UserRow.mk 1 "alice" "pw"] 2)
    "alice" "other" (JsonBody.mk "alice" "other")
    (DbError.uniqueViolation "alice")).2.2 (by rfl)

theorem POST_ok_elim {st st2 : Store} {body : JsonBody}
    {resp : HttpResponse} {lg : List Nat}
    (hp : POST st body = Except.ok (resp, st2, lg)) :
    resp = HttpResponse.mk 200 "Signed up" ∧
    ∃ row : UserRow,
      dbCreate st body.username body.password = Except.ok (row, st2) ∧
      lg = [row.id] := by
  unfold POST at hp
  cases hc : dbCreate st body.username body.password with
  | error e => rw [hc] at hp; cases hp
  | ok pr =>
    obtain ⟨user, stx⟩ := pr
    rw [hc] at hp
    simp only [Except.ok.injEq, Prod.mk.injEq] at hp
    obtain ⟨hresp, hst, hlg⟩ := hp
    exact ⟨hresp.symm, user, by rw [hst], hlg.symm⟩

theorem dbCreate_preserves_distinct {st st2 : Store} {u p : String}
    {row : UserRow} (hc : dbCreate st u p = Except.ok (row, st2))
    (hd : st.rows.Pairwise (fun a b => a.username ≠ b.username)) :
    st2.rows.Pairwise (fun a b => a.username ≠ b.username) := by
  obtain ⟨hu, hrow, hst⟩ := dbCreate_ok_iff.mp hc
  subst hst
  refine List.pairwise_append.mpr ⟨hd, List.pairwise_singleton _ _, ?_⟩
  intro a ha b hb
  rw [List.mem_singleton] at hb
  subst hb
  have hne := hasUsername_false_elim hu a ha
  intro hcontra
  rw [hcontra] at hne
  simp at hne

theorem reachable_distinct {st : Store} (h : Reachable st) :
    st.rows.Pairwise (fun a b => a.username ≠ b.username) := by
  induction h with
  | init => exact List.Pairwise.nil
  | stepSignup st st2 u p b lg h hs ih =>
    obtain ⟨hb, row, hc, hlg⟩ := signup_ok_elim hs
    exact dbCreate_preserves_distinct hc ih
  | stepPost st st2 body resp lg h hs ih =>
    obtain ⟨hresp, row, hc, hlg⟩ := POST_ok_elim hs
    exact dbCreate_preserves_distinct hc ih

/-- C1: uniqueness of username. In every reachable store state no two
User rows share a username; moreover, after a successful signup for a
username, the store holds exactly one row with that username, and every
further signup attempt for it — through the server action or through the
HTTP endpoint — rejects with the unique-constraint violation, writing
nothing. -/
theorem signup_username_unique (st : Store) (h : Reachable st) :
    st.rows.Pairwise (fun a b => a.username ≠ b.username) ∧
    (∀ u p st2 b lg, signup st u p = Except.ok (b, st2, lg) →
      (st2.rows.filter (fun r => r.username == u)).length = 1 ∧
      (∀ p2, signup st2 u p2 = Except.error (DbError.uniqueViolation u)) ∧
      (∀ body : JsonBody, body.username = u →
        POST st2 body = Except.error (DbError.uniqueViolation u))) := by
  refine ⟨reachable_distinct h, ?_⟩
  intro u p st2 b lg hs
  obtain ⟨hb, row, hc, hlg⟩ := signup_ok_elim hs
  obtain ⟨hu, hrow, hst⟩ := dbCreate_ok_iff.mp hc
  subst hrow
  subst hst
  have hmem : UserRow.mk st.nextId u p ∈
      st.rows ++ [UserRow.mk st.nextId u p] :=
    List.mem_append_right _ (List.mem_singleton.mpr rfl)
  have hdup : hasUsername
      (Store.mk (st.rows ++ [UserRow.mk st.nextId u p]) (st.nextId + 1)) u =
      true :=
    hasUsername_true_of_mem hmem rfl
  refine ⟨?_, ?_, ?_⟩
  · have h1 : st.rows.filter (fun r => r.username == u) = [] := by
      refine List.filter_eq_nil_iff.mpr ?_
      intro r hr
      simp [hasUsername_false_elim hu r hr]
    have h2 : (Store.mk (st.rows ++ [UserRow.mk st.nextId u p])
        (st.nextId + 1)).rows = st.rows ++ [UserRow.mk st.nextId u p] := rfl
    rw [h2, List.filter_append, h1]
    simp [List.filter]
  · intro p2
    exact signup_error_iff.mpr (dbCreate_error_iff.mpr ⟨hdup, rfl⟩)
  · intro body hbu
    apply POST_error_iff.mpr
    apply dbCreate_error_iff.mpr
    rw [hbu]
    exact ⟨hdup, rfl⟩

/-- Witness for C1: the fresh store is reachable and duplicate-free, and
after signing up "alice" there, a second signup as "alice" rejects with
the unique-constraint violation. -/
theorem signup_username_unique_witness :
    Store.empty.rows.Pairwise (fun a b => a.username ≠ b.username) ∧
    signup (Store.mk [UserRow.mk 1 "alice" "pw"] 2) "alice" "pw2" =
      Except.error (DbError.uniqueViolation "alice") :=
  ⟨(signup_username_unique Store.empty Reachable.init).1,
   ((signup_username_unique Store.empty Reachable.init).2 "alice" "pw"
      (Store.mk [UserRow.mk 1 "alice" "pw"] 2) true [1] (by rfl)).2.1 "pw2"⟩

/-- The observable outcome of one click of the shipped signup `Button`'s
handler: the route pushed (if any), the error message rendered by the
component (if any), and the rejection the handler's promise propagated
(if any). -/
structure ClientResult where
  navigatedTo : Option String
  errorMessage : Option String
  rejected : Option DbError
deriving Repr, DecidableEq

/-- The click handler of the shipped signup `Button`
(src/components/Button.tsx): it awaits `signup(username, password)` with
no try/catch; on resolution it logs the response and calls
`router.push('/')`; on rejection nothing after the await runs, so no
navigation occurs and the rejection propagates unhandled. The component
holds no state and its JSX contains no error markup, so `errorMessage`
is `none` on every path. -/
def handler (st : Store) (username password : String) :
    ClientResult × Store :=
  match signup st username password with
  | Except.ok (_, st2, _) => (ClientResult.mk (some "/") none none, st2)
  | Except.error e => (ClientResult.mk none none (some e), st)

/-- Counterexample to C6 as stated: submitting username "alice" when
alice's row already exists makes the signup call fail, yet the shipped
Button renders no error message (`errorMessage = none`) and enters no
error state — the failure propagates as an unhandled rejection (and no
navigation occurs). -/
theorem form_failure_counterexample :
    (handler (Store.mk [UserRow.mk 1 "alice" "pw"] 2)
        "alice" "pw2").1.errorMessage = none ∧
    (handler (Store.mk [UserRow.mk 1 "alice" "pw"] 2)
        "alice" "pw2").1.rejected =
      some (DbError.uniqueViolation "alice") ∧
    (handler (Store.mk [UserRow.mk 1 "alice" "pw"] 2)
        "alice" "pw2").1.navigatedTo = none :=
  ⟨rfl, rfl, rfl⟩

/-- C6 (amended): when a form submission's call to the Signup Operation
fails, no navigation away occurs and the store is unchanged, but the
shipped Button renders no error message and has no error state — the
failure propagates as an unhandled rejection; navigation to the fixed
route "/" happens on success. -/
theorem form_failure_behaviour (st : Store) (u p : String) (e : DbError)
    (hf : signup st u p = Except.error e) :
    (handler st u p).1.navigatedTo = none ∧
    (handler st u p).1.errorMessage = none ∧
    (handler st u p).1.rejected = some e ∧
    (handler st u p).2 = st ∧
    (∀ st2 u2 p2 r, signup st2 u2 p2 = Except.ok r →
      (handler st2 u2 p2).1.navigatedTo = some "/") := by
  refine ⟨?_, ?_, ?_, ?_, ?_⟩
  · simp [handler, hf]
  · simp [handler, hf]
  · simp [handler, hf]
  · simp [handler, hf]
  · intro st2 u2 p2 r hr
    obtain ⟨b, stx, lg⟩ := r
    simp [handler, hr]

/-- Witness for C6 (amended) at the concrete input: submitting "alice"
against a store already holding alice rejects, navigates nowhere, renders
nothing, leaves the store unchanged. -/
theorem form_failure_behaviour_witness :
    (handler (Store.mk [UserRow.mk 1 "alice" "pw"] 2)
        "alice" "pw2").1.navigatedTo = none ∧
    (handler (Store.mk [UserRow.mk 1 "alice" "pw"] 2)
        "alice" "pw2").1.errorMessage = none ∧
    (handler (Store.mk [UserRow.mk 1 "alice" "pw"] 2)
        "alice" "pw2").1.rejected =
      some (DbError.uniqueViolation "alice") ∧
    (handler (Store.mk [UserRow.mk 1 "alice" "pw"] 2)
        "alice" "pw2").2 = Store.mk [UserRow.mk 1 "alice" "pw"] 2 ∧
    (∀ st2 u2 p2 r, signup st2 u2 p2 = Except.ok r →
      (handler st2 u2 p2).1.navigatedTo = some "/") :=
  form_failure_behaviour (Store.mk [UserRow.mk 1 "alice" "pw"] 2)
    "alice" "pw2" (DbError.uniqueViolation "alice") (by rfl)

/-- Modelled from the spec: the Persistence Handle lives in `db/index.ts`,
which is not among the given source files (the README quotes it). Process
state for it: the module cache entry holding the module-level `prisma`
binding once the db module has been evaluated, the `globalThis.prisma`
binding, and a counter of pools constructed so far, whose value also
serves as the identity of the next pool to be constructed. -/
structure Process where
  moduleCache : Option Nat
  globalPrisma : Option Nat
  poolsConstructed : Nat
deriving Repr, DecidableEq

/-- Modelled from the spec:
`if (process.env.NODE_ENV !== 'production') globalThis.prisma = prisma` —
outside production the freshly bound pool is cached on the global. -/
def setGlobalIfDev (production : Bool) (p : Nat) (pr : Process) : Process :=
  if production then pr
  else Process.mk pr.moduleCache (some p) pr.poolsConstructed

/-- Modelled from the spec: one access to the Persistence Handle. If the
db module is already in the module cache, the cached module-level
`prisma` binding is returned untouched. Otherwise the module body runs:
`const prisma = globalThis.prisma ?? prismaClientSingleton()` takes the
global if set, else constructs a new pool; the binding is cached in the
module cache, and outside production it is also written to the global. -/
def accessPrisma (production : Bool) (pr : Process) : Nat × Process :=
  match pr.moduleCache with
  | some p => (p, pr)
  | none =>
    match pr.globalPrisma with
    | some p =>
      (p, setGlobalIfDev production p
        (Process.mk (some p) pr.globalPrisma pr.poolsConstructed))
    | none =>
      (pr.poolsConstructed, setGlobalIfDev production pr.poolsConstructed
        (Process.mk (some pr.poolsConstructed) none (pr.poolsConstructed + 1)))

/-- The state and result of the (n+1)-th access to the Persistence Handle
within one process starting from `pr`. -/
def accessIter (production : Bool) (pr : Process) : Nat → Nat × Process
  | 0 => accessPrisma production pr
  | n + 1 => accessPrisma production (accessIter production pr n).2

theorem accessPrisma_idem (production : Bool) (pr : Process) :
    accessPrisma production (accessPrisma production pr).2 =
      accessPrisma production pr := by
  obtain ⟨mc, g, n⟩ := pr
  cases mc <;> cases g <;> cases production <;>
    simp [accessPrisma, setGlobalIfDev]

/-- C7: the Persistence Handle is a per-process singleton — within one
process, every access after the first returns exactly the result and
state of the first access: the identical pool instance, with no further
pool ever constructed. -/
theorem singleton_persistence_handle (production : Bool) (pr : Process)
    (n : Nat) :
    accessIter production pr n = accessPrisma production pr := by
  induction n with
  | zero => rfl
  | succ k ih =>
    have hstep : accessIter production pr (k + 1) =
        accessPrisma production (accessIter production pr k).2 := rfl
    rw [hstep, ih, accessPrisma_idem]

/-- The object `getUserDetails` resolves with: `name` and `email`, both
read from the fetched row by optional chaining (undefined when no row
exists). -/
structure UserDetails where
  name : Option String
  email : Option String
deriving Repr, DecidableEq

/-- `getUserDetails` from the Home page (in src/components/Button.tsx):
awaits `client.user.findFirst({})` — the first row of the table, if any.
On a database error the catch block only logs, so the function returns
undefined (`none`). On success it returns an object whose `name` and
`email` fields are BOTH populated from the row's `username` by optional
chaining. The `dbError` flag models whether the findFirst call
rejects. -/
def getUserDetails (st : Store) (dbError : Bool) : Option UserDetails :=
  if dbError then none
  else some (UserDetails.mk ((st.rows.head?).map (fun r => r.username))
    ((st.rows.head?).map (fun r => r.username)))

/-- What rendering the Home page produces: either the rendered email
value, or the TypeError thrown by dereferencing `undefined`. -/
inductive RenderResult where
  | rendered : Option String → RenderResult
  | typeError : RenderResult
deriving Repr, DecidableEq

/-- The `Home` page (in src/components/Button.tsx): awaits
`getUserDetails()` and renders `userData.email`. When `getUserDetails`
returned undefined, the property access `userData.email` throws a
TypeError and the render fails. -/
def Home (st : Store) (dbError : Bool) : RenderResult :=
  match getUserDetails st dbError with
  | none => RenderResult.typeError
  | some d => RenderResult.rendered d.email

/-- C10: on a database error `getUserDetails` returns undefined and the
Home render fails with a TypeError on `userData.email`; and when the
lookup succeeds with an existing user, both `name` and `email` are
populated from the user's `username`, so the value rendered as the email
is actually the username. -/
theorem home_render_behaviour (st : Store) (r : UserRow)
    (hr : st.rows.head? = some r) :
    getUserDetails st true = none ∧
    Home st true = RenderResult.typeError ∧
    getUserDetails st false =
      some (UserDetails.mk (some r.username) (some r.username)) ∧
    Home st false = RenderResult.rendered (some r.username) := by
  refine ⟨rfl, rfl, ?_, ?_⟩
  · simp [getUserDetails, hr]
  · simp [Home, getUserDetails, hr]

/-- Witness for C10 at the concrete input: with alice's row first in the
store, a database error crashes the render, and a successful lookup
renders alice's username as the email. -/
theorem home_render_behaviour_witness :
    getUserDetails (Store.mk [UserRow.mk 1 "alice" "pw"] 2) true = none ∧
    Home (Store.mk [UserRow.mk 1 "alice" "pw"] 2) true =
      RenderResult.typeError ∧
    getUserDetails (Store.mk [UserRow.mk 1 "alice" "pw"] 2) false =
      some (UserDetails.mk (some "alice") (some "alice")) ∧
    Home (Store.mk [UserRow.mk 1 "alice" "pw"] 2) false =
      RenderResult.rendered (some "alice") :=
  home_render_behaviour (Store.mk [UserRow.mk 1 "alice" "pw"] 2)
    (UserRow.mk 1 "alice" "pw") (by rfl)

end NextApp
